import Mathlib

/-!
Verification development for the jls-lawn-tracker scheduling tool.

The source is a browser front end (src/script.js) talking to a serverless
jobs API (src/netlify/functions/jobs.js, and the hard-delete variant in
src/unnamed/part_000), with a localStorage mirror used when the API is
unreachable.  This file embeds the recurring-job expansion performed by
saveJob, the validation in saveJob, the local-mirror operations, and the
effect of the API handlers on the jobs table, and proves the stated
properties about them.

Modelling conventions:
- A local date-time value ("YYYY-MM-DDTHH:mm") is modelled as a Nat
  measured in days, since saveJob only ever advances the date component
  (jobDate.setDate(jobDate.getDate() + i * intervalDays)) and all
  comparisons in the code are chronological (gte on start_time).
- JS null/undefined record fields are modelled with Option.
- The remote jobs table is a List Job; each Supabase call made by a
  handler is modelled by its effect on that list.  Supabase row ids are
  Strings.
- The empty string models an empty text input; the date input is an
  Option Nat where none models the empty field.
-/

/-- Job status values stored in the status column (pending on creation in
src/script.js line 708; set to done by the done handler and to cancelled by
the cancel handler in src/netlify/functions/jobs.js). -/
inductive Status where
  | pending
  | done
  | cancelled
deriving DecidableEq, Repr, Inhabited, Fintype

/-- The CONFIG.recurrence table (src/script.js lines 60-64). -/
def recurrenceConfig : List (String × Nat) :=
  [("weekly", 7), ("biweekly", 14), ("monthly", 30)]

/-- Embeds the expression CONFIG.recurrence[formData.frequency] || 7
(src/script.js line 692): a lookup miss, or a JS-falsy 0 entry, defaults
to 7. -/
def intervalDaysFor (frequency : String) : Nat :=
  match recurrenceConfig.lookup frequency with
  | some v => if v = 0 then 7 else v
  | none => 7

/-- The recurrence_pattern JSON payload built at src/script.js lines 711-713. -/
structure RecurrencePattern where
  frequency : String
  interval : Nat
deriving DecidableEq, Repr, Inhabited

/-- The formData record collected at the top of saveJob
(src/script.js lines 615-625). occurrences is parseInt(...) || 1. -/
structure FormData where
  client : String
  phone : String
  address : String
  price : String
  date : Option Nat
  notes : String
  isRecurring : Bool
  frequency : String
  occurrences : Int
deriving DecidableEq, Repr, Inhabited

/-- The job object pushed onto jobsToCreate (src/script.js lines 700-718).
status is an Option because in edit mode the status key of the first
record is deleted (lines 708 and 717). -/
structure JobPayload where
  title : String
  start_time : Nat
  job_type : String
  notes : String
  price : Option String
  address : String
  client_phone : String
  status : Option Status
  recurring_id : Option String
  is_recurring : Bool
  recurrence_pattern : Option RecurrencePattern
  occurrence_number : Nat
deriving DecidableEq, Repr, Inhabited

/-- The inputs saveJob reads besides the form: the selected job type chip,
the edit-mode flags and the module-level ids (src/script.js lines 229-233,
614-625, 690-693). nowMs models Date.now(). -/
structure SaveInput where
  form : FormData
  selectedJobType : String
  isEditMode : Bool
  editScope : String
  currentRecurringId : Option String
  currentEventId : String
  nowMs : Nat
deriving DecidableEq, Repr, Inhabited

/-- The validation pass of saveJob (src/script.js lines 630-672), in source
order.  Each failed check contributes its message to the errors array. -/
def validationErrors (input : SaveInput) : List String :=
  (if input.form.client = "" then ["Client name is required"] else []) ++
  (if input.selectedJobType = "" then ["Please select a job type"] else []) ++
  (if input.form.address = "" then ["Address is required"] else []) ++
  (if input.form.price = "" then ["Price is required"] else []) ++
  (if input.form.date = none then ["Date is required"] else []) ++
  (if input.form.isRecurring && decide (input.form.occurrences < 2)
   then ["Recurring jobs need at least 2 occurrences"] else [])

/-- Embeds s.toLowerCase().includes(t.toLowerCase()) used while building the
event title (src/script.js line 686). -/
def lowerIncludes (s t : String) : Bool :=
  (s.toLower.splitOn t.toLower).length != 1

/-- The type label used in the title (src/script.js line 684). -/
def typeLabelFor (jobType : String) : String :=
  if jobType = "mowing" then "Mowing" else "Hedge Trimming"

/-- Event title construction (src/script.js lines 684-688). -/
def eventTitleFor (client jobType : String) : String :=
  let lbl := typeLabelFor jobType
  if lowerIncludes client lbl then client else client ++ " - " ++ lbl

/-- The number of iterations of the generation loop:
numJobs = formData.isRecurring ? formData.occurrences : 1
(src/script.js line 693). -/
def plannedJobCount (input : SaveInput) : Nat :=
  if input.form.isRecurring then input.form.occurrences.toNat else 1

/-- One iteration of the generation loop (src/script.js lines 696-719):
the i-th record of the expansion. -/
def mkJobPayload (input : SaveInput) (title : String) (recurringId : Option String)
    (intervalDays : Nat) (startDay : Nat) (i : Nat) : JobPayload :=
  { title := title
    start_time := startDay + i * intervalDays
    job_type := input.selectedJobType
    notes := input.form.notes
    price := if input.form.price = "" then none else some input.form.price
    address := input.form.address
    client_phone := input.form.phone
    status := if input.isEditMode ∧ i = 0 then none else some .pending
    recurring_id := recurringId
    is_recurring := input.form.isRecurring
    recurrence_pattern :=
      if input.form.isRecurring
      then some { frequency := input.form.frequency, interval := intervalDays }
      else none
    occurrence_number := i + 1 }

/-- The jobsToCreate array built by the generation loop
(src/script.js lines 690-719). -/
def expandedJobs (input : SaveInput) : List JobPayload :=
  let title := eventTitleFor input.form.client input.selectedJobType
  let recurringId :=
    if input.form.isRecurring then some ("rec_" ++ toString input.nowMs) else none
  let intervalDays := intervalDaysFor input.form.frequency
  let startDay := input.form.date.getD 0
  (List.range (plannedJobCount input)).map
    (mkJobPayload input title recurringId intervalDays startDay)

/-- The validation-plus-generation phase of saveJob (src/script.js
lines 614-719): on any validation error the function returns before
building or persisting anything; otherwise it builds jobsToCreate. -/
def saveJobGenerate (input : SaveInput) : Except (List String) (List JobPayload) :=
  if validationErrors input ≠ [] then .error (validationErrors input)
  else .ok (expandedJobs input)

example : intervalDaysFor "weekly" = 7 := by decide
example : intervalDaysFor "biweekly" = 14 := by decide
example : intervalDaysFor "monthly" = 30 := by decide
example : intervalDaysFor "daily" = 7 := by decide

/-- A row of the remote jobs table as read and written by the handlers in
src/netlify/functions/jobs.js and src/unnamed/part_000. -/
structure Job where
  id : String
  title : String
  start_time : Nat
  job_type : String
  notes : String
  price : Option String
  address : String
  client_phone : String
  status : Status
  recurring_id : Option String
  is_recurring : Bool
  recurrence_pattern : Option RecurrencePattern
  occurrence_number : Nat
  google_event_id : Option String
  updated_at : Nat
deriving DecidableEq, Repr, Inhabited

/-- Effect of DELETE jobs?id=eq.{jobId} on the table: every row with that id
is removed (a miss removes nothing and is not an error). -/
def supabaseDeleteById (store : List Job) (jobId : String) : List Job :=
  store.filter (fun j => j.id != jobId)

/-- Effect of PATCH jobs?id=eq.{jobId} on the table: every row with that id
is rewritten by the patch. -/
def supabasePatchById (store : List Job) (jobId : String) (patch : Job → Job) :
    List Job :=
  store.map (fun j => if j.id == jobId then patch j else j)

/-- The row filter recurring_id=eq.{recurringId} used by the series
handlers. -/
def seriesMatch (recurringId : String) (j : Job) : Bool :=
  j.recurring_id == some recurringId

/-- The row filter recurring_id=eq.{recurringId}&start_time=gte.{fromDate}
used by the delete-future handler (src/unnamed/part_000 lines 321-323):
gte is an inclusive comparison. -/
def futureMatch (recurringId : String) (fromDate : Nat) (j : Job) : Bool :=
  j.recurring_id == some recurringId && decide (fromDate ≤ j.start_time)

/-- DELETE /api/jobs/delete/:id (src/unnamed/part_000 lines 290-314): the
row with the given id is deleted (Google Calendar cleanup is best-effort
and external), and the response body is always
JSON.stringify({ success: true, deleted: 1 }) — the count 1 is a literal,
not a row count. -/
def handleDeleteSingle (store : List Job) (jobId : String) : List Job × Nat :=
  (supabaseDeleteById store jobId, 1)

/-- DELETE /api/jobs/delete-future/:recurringId/:fromDate
(src/unnamed/part_000 lines 316-344): selects the rows matching
recurring_id=eq & start_time=gte, deletes each selected row by id in a
loop, and reports the loop count as deleted. -/
def handleDeleteFuture (store : List Job) (recurringId : String) (fromDate : Nat) :
    List Job × Nat :=
  let targets := store.filter (futureMatch recurringId fromDate)
  (targets.foldl (fun s j => supabaseDeleteById s j.id) store, targets.length)

/-- DELETE /api/jobs/delete-series/:recurringId (src/unnamed/part_000
lines 346-371): selects the rows with the recurring id, deletes each by id
in a loop, and reports the loop count as deleted. -/
def handleDeleteSeries (store : List Job) (recurringId : String) :
    List Job × Nat :=
  let targets := store.filter (seriesMatch recurringId)
  (targets.foldl (fun s j => supabaseDeleteById s j.id) store, targets.length)

/-- The sharedData object built by updateAllInSeries
(src/script.js lines 844-852): the only fields sent to the series
update. -/
structure SharedData where
  title : String
  job_type : String
  notes : String
  price : Option String
  address : String
  client_phone : String
deriving DecidableEq, Repr, Inhabited

/-- Extraction of sharedData from jobsToCreate[0]
(src/script.js lines 845-852). -/
def sharedDataOf (p : JobPayload) : SharedData :=
  { title := p.title, job_type := p.job_type, notes := p.notes,
    price := p.price, address := p.address, client_phone := p.client_phone }

/-- The row rewrite performed for each series member by
PUT /api/jobs/series/:recurringId (src/netlify/functions/jobs.js
lines 100-107): PATCH body { ...updates, updated_at: now } where updates
is the sharedData sent by the client. -/
def applySharedPatch (sd : SharedData) (now : Nat) (j : Job) : Job :=
  { j with
    title := sd.title
    job_type := sd.job_type
    notes := sd.notes
    price := sd.price
    address := sd.address
    client_phone := sd.client_phone
    updated_at := now }

/-- PUT /api/jobs/series/:recurringId (src/netlify/functions/jobs.js
lines 91-114): selects the ids of the rows with the recurring id, patches
each selected row by id in a loop, and reports the loop count as
updated. -/
def handleUpdateSeries (store : List Job) (recurringId : String)
    (sd : SharedData) (now : Nat) : List Job × Nat :=
  let targets := store.filter (seriesMatch recurringId)
  (targets.foldl (fun s j => supabasePatchById s j.id (applySharedPatch sd now)) store,
   targets.length)

/-- The row rewrite performed by PUT /api/jobs/:id
(src/netlify/functions/jobs.js lines 117-132): PATCH body
{ ...updates, updated_at: now } where updates is the jobsToCreate[0]
payload sent by saveJob.  A PATCH only overwrites the keys present in the
body, so a payload with no status key leaves the row status unchanged. -/
def applyPayloadPatch (p : JobPayload) (now : Nat) (j : Job) : Job :=
  { j with
    title := p.title
    start_time := p.start_time
    job_type := p.job_type
    notes := p.notes
    price := p.price
    address := p.address
    client_phone := p.client_phone
    status := p.status.getD j.status
    recurring_id := p.recurring_id
    is_recurring := p.is_recurring
    recurrence_pattern := p.recurrence_pattern
    occurrence_number := p.occurrence_number
    updated_at := now }

/-- PUT /api/jobs/:id (src/netlify/functions/jobs.js lines 117-132). -/
def handlePutSingle (store : List Job) (jobId : String) (p : JobPayload)
    (now : Nat) : List Job :=
  supabasePatchById store jobId (applyPayloadPatch p now)

/-- PATCH /api/jobs/done/:id (src/netlify/functions/jobs.js
lines 201-215): sets status to done unconditionally. -/
def handlePatchDone (store : List Job) (jobId : String) (now : Nat) : List Job :=
  supabasePatchById store jobId (fun j => { j with status := .done, updated_at := now })

/-- PATCH /api/jobs/cancel/:id (src/netlify/functions/jobs.js
lines 134-149): sets status to cancelled unconditionally.  No front end in
the repository calls this route: src/script.js routes every cancel action
to the hard-delete endpoints (lines 994-1003). -/
def handlePatchCancel (store : List Job) (jobId : String) (now : Nat) : List Job :=
  supabasePatchById store jobId (fun j => { j with status := .cancelled, updated_at := now })

example : handleDeleteSingle [] "42" = ([], 1) := by decide

/-- A record of the local mirror collection stored under
CONFIG.storage.jobsKey, in the shape pushed by createJobs
(src/script.js lines 784-802). -/
structure LocalJob where
  id : String
  title : String
  start : Nat
  type : String
  notes : String
  phone : String
  status : Option Status
  price : Option String
  address : String
  recurring_id : Option String
  is_recurring : Bool
  classNames : List String
deriving DecidableEq, Repr, Inhabited

/-- getEventClasses (src/script.js lines 418-429). -/
def getEventClasses (type : String) (status : Option Status) (isRec : Bool) :
    List String :=
  (if type = "mowing" then ["job-mowing"]
   else if type = "hedge" then ["job-hedge"] else []) ++
  (if status = some .done then ["job-completed"] else []) ++
  (if status = some .cancelled then ["job-cancelled"] else []) ++
  (if isRec then ["job-recurring"] else [])

/-- The local record pushed by createJobs in local mode
(src/script.js lines 785-800). -/
def payloadToLocal (id : String) (p : JobPayload) : LocalJob :=
  { id := id
    title := p.title
    start := p.start_time
    type := p.job_type
    notes := p.notes
    phone := p.client_phone
    status := p.status
    price := p.price
    address := p.address
    recurring_id := p.recurring_id
    is_recurring := p.is_recurring
    classNames := getEventClasses p.job_type p.status p.is_recurring }

/-- createJobs in local mode (src/script.js lines 783-802): appends one
local record per payload, with id Date.now() + underscore + index. -/
def createJobsLocal (store : List LocalJob) (nowMs : Nat)
    (jobs : List JobPayload) : List LocalJob :=
  store ++ jobs.enum.map
    (fun pr => payloadToLocal (toString nowMs ++ "_" ++ toString pr.1) pr.2)

/-- The field copy performed by updateJob in local mode
(src/script.js lines 823-833): only title, start, type, notes, phone,
address and price are copied onto the stored record. -/
def localEditPatch (p : JobPayload) (j : LocalJob) : LocalJob :=
  { j with
    title := p.title
    start := p.start_time
    type := p.job_type
    notes := p.notes
    phone := p.client_phone
    address := p.address
    price := p.price }

/-- updateJob in local mode (src/script.js lines 820-836): findIndex
locates the first record with the id and only that record is rewritten. -/
def updateJobLocal (store : List LocalJob) (jobId : String) (p : JobPayload) :
    List LocalJob :=
  match store with
  | [] => []
  | j :: rest =>
    if j.id == jobId then localEditPatch p j :: rest
    else j :: updateJobLocal rest jobId p

/-- The field copy performed by updateAllInSeries in local mode
(src/script.js lines 871-881). -/
def localSharedPatch (sd : SharedData) (j : LocalJob) : LocalJob :=
  { j with
    title := sd.title
    type := sd.job_type
    notes := sd.notes
    price := sd.price
    address := sd.address
    phone := sd.client_phone }

/-- updateAllInSeries in local mode (src/script.js lines 866-885): every
record whose recurring_id matches is rewritten and counted. -/
def updateAllInSeriesLocal (store : List LocalJob) (recurringId : String)
    (sd : SharedData) : List LocalJob × Nat :=
  (store.map (fun j => if j.recurring_id == some recurringId
                       then localSharedPatch sd j else j),
   (store.filter (fun j => j.recurring_id == some recurringId)).length)

/-- deleteSingleJob in local mode (src/script.js lines 1027-1031). -/
def deleteSingleJobLocal (store : List LocalJob) (jobId : String) :
    List LocalJob :=
  store.filter (fun j => j.id != jobId)

/-- deleteFutureJobs in local mode (src/script.js lines 1049-1057): keeps
the records that do NOT match (recurring_id equal and start at or after
fromDate — an inclusive comparison), and reports how many were dropped. -/
def deleteFutureJobsLocal (store : List LocalJob) (recurringId : String)
    (fromDate : Nat) : List LocalJob × Nat :=
  let filtered := store.filter
    (fun j => !(j.recurring_id == some recurringId && decide (fromDate ≤ j.start)))
  (filtered, store.length - filtered.length)

/-- deleteEntireSeries in local mode (src/script.js lines 1072-1078). -/
def deleteEntireSeriesLocal (store : List LocalJob) (recurringId : String) :
    List LocalJob × Nat :=
  let filtered := store.filter (fun j => !(j.recurring_id == some recurringId))
  (filtered, store.length - filtered.length)

/-- Storage.set (src/script.js lines 367-376): a failing localStorage write
is caught, a warning modal is shown and false is returned; the stored
collection is unchanged.  ok models whether the write can succeed. -/
def storageSet (ok : Bool) (old new : List LocalJob) : List LocalJob × Bool :=
  if ok then (new, true) else (old, false)

/-- The environment a saveJob call runs against: the API reachability flag
set once by initializeAPI (src/script.js lines 384-409), the remote table,
the local mirror, and whether localStorage writes succeed. -/
structure Env where
  apiAvailable : Bool
  storageOk : Bool
  remoteStore : List Job
  localStore : List LocalJob
deriving DecidableEq, Repr, Inhabited

/-- The outcome surfaced to the user by saveJob: either the validation
error list (shown and the function returns, src/script.js lines 674-681)
or a success modal message (lines 722-737). -/
inductive SaveOutcome where
  | validationFailed (errors : List String)
  | success (message : String)
deriving DecidableEq, Repr, Inhabited

/-- The success message of the create path (src/script.js lines 735-736). -/
def scheduledMessage (n : Nat) : String :=
  toString n ++ " " ++ (if 1 < n then "Jobs" else "Job") ++ " Scheduled!"

/-- The row inserted by POST /api/jobs for one payload
(src/netlify/functions/jobs.js lines 74-88): the server assigns the id; a
payload without a status key gets the column default pending. -/
def payloadToJob (id : String) (now : Nat) (p : JobPayload) : Job :=
  { id := id
    title := p.title
    start_time := p.start_time
    job_type := p.job_type
    notes := p.notes
    price := p.price
    address := p.address
    client_phone := p.client_phone
    status := p.status.getD .pending
    recurring_id := p.recurring_id
    is_recurring := p.is_recurring
    recurrence_pattern := p.recurrence_pattern
    occurrence_number := p.occurrence_number
    google_event_id := none
    updated_at := now }

/-- saveJob (src/script.js lines 614-752) from validation through
persistence: on validation errors it returns before any persistence; in
edit mode with scope all and a current recurring id it runs
updateAllInSeries, otherwise in edit mode it runs updateJob on
currentEventId; outside edit mode it runs createJobs; each operation uses
the remote API when available and the local mirror otherwise.  Calendar
sync is server-side and best-effort, so it does not appear in the stores
modelled here. -/
def saveJobRun (input : SaveInput) (env : Env) (now : Nat) : SaveOutcome × Env :=
  match saveJobGenerate input with
  | .error errs => (.validationFailed errs, env)
  | .ok jobs =>
    if input.isEditMode then
      match input.currentRecurringId, input.editScope == "all" with
      | some rid, true =>
        let sd := sharedDataOf (jobs.headD default)
        if env.apiAvailable then
          let res := handleUpdateSeries env.remoteStore rid sd now
          (.success ("Updated " ++ toString res.2 ++ " job(s) in the series!"),
           { env with remoteStore := res.1 })
        else
          let res := updateAllInSeriesLocal env.localStore rid sd
          (.success ("Updated " ++ toString res.2 ++ " job(s) in the series!"),
           { env with localStore := (storageSet env.storageOk env.localStore res.1).1 })
      | _, _ =>
        let p := jobs.headD default
        if env.apiAvailable then
          (.success "Job Updated!",
           { env with remoteStore := handlePutSingle env.remoteStore input.currentEventId p now })
        else
          (.success "Job Updated!",
           { env with localStore :=
              (storageSet env.storageOk env.localStore
                (updateJobLocal env.localStore input.currentEventId p)).1 })
    else
      if env.apiAvailable then
        let created := jobs.enum.map
          (fun pr => payloadToJob ("srv_" ++ toString now ++ "_" ++ toString pr.1) now pr.2)
        (.success (scheduledMessage jobs.length),
         { env with remoteStore := env.remoteStore ++ created })
      else
        (.success (scheduledMessage jobs.length),
         { env with localStore :=
            (storageSet env.storageOk env.localStore
              (createJobsLocal env.localStore now jobs)).1 })

/-- Button gating in openJobDetails (src/script.js lines 1626-1658): MARK
AS DONE is disabled when status is done (line 1635) and when it is
cancelled (line 1650). -/
def markDoneEnabled (s : Status) : Bool :=
  !(s == .done) && !(s == .cancelled)

/-- CANCEL JOB is disabled only when status is cancelled
(src/script.js lines 1643-1656). -/
def cancelEnabled (s : Status) : Bool :=
  !(s == .cancelled)

/-- EDIT is disabled only when status is cancelled
(src/script.js lines 1649, 1657). -/
def editEnabled (s : Status) : Bool :=
  !(s == .cancelled)

/-- The operations the application offers against one displayed occurrence,
tracked by their effect on that single occurrence.  markDone and
cancelSelf and editSelf go through the job-details buttons and are subject
to the gating above; deleteViaSeries and editViaSeries model a
future-scope or all-scope action started from another occurrence of the
same series, which reaches this occurrence regardless of its own status.
In src/script.js every cancel action is a hard delete
(confirmCancelScope, lines 990-1015); no front end calls the
status-setting cancel routes of src/netlify/functions/jobs.js. -/
inductive UserAction where
  | markDone
  | cancelSelf
  | deleteViaSeries
  | editSelf
  | editViaSeries
deriving DecidableEq, Repr, Fintype

/-- Effect of one offered operation on the tracked occurrence: none means
the occurrence has been hard-deleted.  markDone issues the done handler
(status := done) only when its button is enabled; cancelSelf issues a
hard delete only when its button is enabled; editSelf sends a payload
whose status key was deleted (src/script.js lines 708, 717), so the PATCH
leaves the status column alone; editViaSeries patches only the sharedData
fields (src/script.js lines 845-852), which carry no status. -/
def applyAction : Option Status → UserAction → Option Status
  | none, _ => none
  | some s, .markDone => if markDoneEnabled s then some .done else some s
  | some s, .cancelSelf => if cancelEnabled s then none else some s
  | some _, .deleteViaSeries => none
  | some s, .editSelf => if editEnabled s then some ((none : Option Status).getD s) else some s
  | some s, .editViaSeries => some s

/-- A sequence of offered operations applied to one occurrence. -/
def runActions (st : Option Status) (acts : List UserAction) : Option Status :=
  acts.foldl applyAction st

/-- The per-row delete loop of the delete-future and delete-series
handlers removes exactly the rows whose id appears among the selected
targets. -/
theorem foldl_deleteById_eq_filter (ts : List Job) (s : List Job) :
    ts.foldl (fun acc j => supabaseDeleteById acc j.id) s
      = s.filter (fun j => !(decide (j.id ∈ ts.map Job.id))) := by
  induction ts generalizing s with
  | nil => simp
  | cons t ts ih =>
    rw [List.foldl_cons, ih]
    unfold supabaseDeleteById
    rw [List.filter_filter]
    apply List.filter_congr
    intro j _
    by_cases h1 : j.id = t.id <;> by_cases h2 : j.id ∈ ts.map Job.id <;>
      simp [h1, h2, bne]

/-- The per-row patch loop of the series update handler rewrites exactly
the rows whose id appears among the selected targets, provided the patch
preserves the id and is idempotent. -/
theorem foldl_patchById_eq_map (p : Job → Job) (hid : ∀ j, (p j).id = j.id)
    (hidem : ∀ j, p (p j) = p j) (ts : List Job) (s : List Job) :
    ts.foldl (fun acc j => supabasePatchById acc j.id p) s
      = s.map (fun j => if decide (j.id ∈ ts.map Job.id) then p j else j) := by
  induction ts generalizing s with
  | nil => simp
  | cons t ts ih =>
    rw [List.foldl_cons, ih]
    unfold supabasePatchById
    rw [List.map_map]
    apply List.map_congr_left
    intro j _
    by_cases h1 : j.id = t.id
    · by_cases h2 : j.id ∈ ts.map Job.id <;>
        simp [Function.comp, h1, h2, hid, hidem]
    · by_cases h2 : j.id ∈ ts.map Job.id <;>
        simp [Function.comp, h1, h2]

/-- In a table whose ids are pairwise distinct, a row id occurs among the
rows selected by a filter exactly when the row itself satisfies the
filter. -/
theorem mem_filter_ids_iff {q : Job → Bool} {store : List Job}
    (hnodup : (store.map Job.id).Nodup) {j : Job} (hj : j ∈ store) :
    j.id ∈ ((store.filter q).map Job.id) ↔ q j = true := by
  constructor
  · intro hmem
    obtain ⟨t, htmem, htid⟩ := List.mem_map.mp hmem
    obtain ⟨htstore, htq⟩ := List.mem_filter.mp htmem
    have : t = j := List.inj_on_of_nodup_map hnodup htstore hj htid
    rwa [this] at htq
  · intro hq
    exact List.mem_map_of_mem _ (List.mem_filter.mpr ⟨hj, hq⟩)

/-- Validation passes exactly when every required field is present and a
recurring request has at least two occurrences. -/
theorem validationErrors_nil {input : SaveInput}
    (hclient : input.form.client ≠ "") (htype : input.selectedJobType ≠ "")
    (haddr : input.form.address ≠ "") (hprice : input.form.price ≠ "")
    (hdate : input.form.date ≠ none)
    (hocc : input.form.isRecurring = true → 2 ≤ input.form.occurrences) :
    validationErrors input = [] := by
  unfold validationErrors
  rw [if_neg hclient, if_neg htype, if_neg haddr, if_neg hprice, if_neg hdate]
  cases hrec : input.form.isRecurring with
  | false => simp
  | true =>
    have h2 : ¬(input.form.occurrences < 2) := not_lt.mpr (hocc hrec)
    simp [h2]

theorem expandedJobs_length (input : SaveInput) :
    (expandedJobs input).length = plannedJobCount input := by
  simp [expandedJobs]

/-- Every entry of jobsToCreate is the record built by the i-th loop
iteration. -/
theorem expandedJobs_get {input : SaveInput} {i : Nat} {j : JobPayload}
    (hj : (expandedJobs input)[i]? = some j) :
    i < plannedJobCount input ∧
    j = mkJobPayload input (eventTitleFor input.form.client input.selectedJobType)
        (if input.form.isRecurring then some ("rec_" ++ toString input.nowMs) else none)
        (intervalDaysFor input.form.frequency) (input.form.date.getD 0) i := by
  have hlen : i < (expandedJobs input).length := by
    by_contra h
    rw [List.getElem?_eq_none (le_of_not_lt h)] at hj
    exact Option.noConfusion hj
  rw [expandedJobs_length] at hlen
  refine ⟨hlen, ?_⟩
  unfold expandedJobs at hj
  rw [List.getElem?_map, List.getElem?_range hlen] at hj
  simp only [Option.map_some'] at hj
  exact (Option.some_injective _ hj).symm

/-- Helper: with recurrence requested and fewer than 2 occurrences, the
recurring validation message is reported. -/
theorem recurring_error_mem {input : SaveInput}
    (hrec : input.form.isRecurring = true)
    (hocc : input.form.occurrences < 2) :
    "Recurring jobs need at least 2 occurrences" ∈ validationErrors input := by
  unfold validationErrors
  simp [hrec, hocc]

/-- C1: for a recurring submission with occurrence count N at least 2 and a
frequency among weekly, biweekly and monthly, the expansion in saveJob
produces exactly N records whose start times are start_date plus
i * interval_days(frequency) for i = 0..N-1 (weekly 7, biweekly 14,
monthly 30 days), hence strictly increasing; all N records share the one
non-null recurring_id and occurrence_number is i+1, i.e. 1..N in order. -/
theorem c1_recurring_expansion (input : SaveInput) (N : Nat) (d : Nat)
    (hrec : input.form.isRecurring = true)
    (hocc : input.form.occurrences = (N : Int))
    (hN : 2 ≤ N)
    (hfreq : input.form.frequency = "weekly" ∨ input.form.frequency = "biweekly" ∨
             input.form.frequency = "monthly")
    (hclient : input.form.client ≠ "") (htype : input.selectedJobType ≠ "")
    (haddr : input.form.address ≠ "") (hprice : input.form.price ≠ "")
    (hdate : input.form.date = some d) :
    saveJobGenerate input = .ok (expandedJobs input) ∧
    (expandedJobs input).length = N ∧
    (∀ (i : Nat) (j : JobPayload), (expandedJobs input)[i]? = some j →
      j.start_time = d + i * intervalDaysFor input.form.frequency ∧
      j.occurrence_number = i + 1 ∧
      j.recurring_id = some ("rec_" ++ toString input.nowMs)) ∧
    (∀ (i k : Nat) (ji jk : JobPayload), i < k →
      (expandedJobs input)[i]? = some ji → (expandedJobs input)[k]? = some jk →
      ji.start_time < jk.start_time) ∧
    (intervalDaysFor "weekly" = 7 ∧ intervalDaysFor "biweekly" = 14 ∧
     intervalDaysFor "monthly" = 30) := by
  have hnil : validationErrors input = [] :=
    validationErrors_nil hclient htype haddr hprice
      (by rw [hdate]; simp)
      (fun _ => by rw [hocc]; exact_mod_cast hN)
  have hcount : plannedJobCount input = N := by
    simp [plannedJobCount, hrec, hocc]
  have hpos : 0 < intervalDaysFor input.form.frequency := by
    rcases hfreq with h | h | h <;> rw [h] <;> decide
  refine ⟨?_, ?_, ?_, ?_, by decide⟩
  · simp [saveJobGenerate, hnil]
  · rw [expandedJobs_length, hcount]
  · intro i j hj
    obtain ⟨hi, rfl⟩ := expandedJobs_get hj
    refine ⟨?_, rfl, ?_⟩
    · simp [mkJobPayload, hdate]
    · simp [mkJobPayload, hrec]
  · intro i k ji jk hik hji hjk
    obtain ⟨hi, rfl⟩ := expandedJobs_get hji
    obtain ⟨hk, rfl⟩ := expandedJobs_get hjk
    have hmul : i * intervalDaysFor input.form.frequency
        < k * intervalDaysFor input.form.frequency :=
      Nat.mul_lt_mul_of_lt_of_le hik (le_refl _) hpos
    simp only [mkJobPayload]
    omega

/-- Concrete input for the C1 witness: a weekly series of 3 starting on
day 100. -/
def c1Input : SaveInput :=
  { form :=
    { client := "Alice"
      phone := "555"
      address := "1 Elm St"
      price := "40"
      date := some 100
      notes := ""
      isRecurring := true
      frequency := "weekly"
      occurrences := 3 }
    selectedJobType := "mowing"
    isEditMode := false
    editScope := "single"
    currentRecurringId := none
    currentEventId := ""
    nowMs := 7 }

/-- Witness for C1 at the concrete weekly 3-occurrence input. -/
theorem c1_witness :
    saveJobGenerate c1Input = .ok (expandedJobs c1Input) ∧
    (expandedJobs c1Input).length = 3 := by
  have h := c1_recurring_expansion c1Input 3 100 rfl rfl (by decide)
    (Or.inl rfl) (by decide) (by decide) (by decide) (by decide) rfl
  exact ⟨h.1, h.2.1⟩

/-- C4: a submission with recurrence explicitly requested and fewer than 2
occurrences is rejected: the validation error is reported and saveJob
returns before any persistence, leaving both the remote table and the
local mirror unchanged. -/
theorem c4_recurring_validation (input : SaveInput) (env : Env) (now : Nat)
    (hrec : input.form.isRecurring = true)
    (hocc : input.form.occurrences < 2) :
    saveJobRun input env now = (.validationFailed (validationErrors input), env) ∧
    "Recurring jobs need at least 2 occurrences" ∈ validationErrors input := by
  have hmem := recurring_error_mem hrec hocc
  have hne : validationErrors input ≠ [] := by
    intro h
    rw [h] at hmem
    exact absurd hmem (List.not_mem_nil _)
  refine ⟨?_, hmem⟩
  simp [saveJobRun, saveJobGenerate, hne]

/-- Concrete input for the C4 witness: recurrence requested with a single
occurrence. -/
def c4Input : SaveInput :=
  { form :=
    { client := "Bob"
      phone := ""
      address := "2 Oak St"
      price := "25"
      date := some 40
      notes := ""
      isRecurring := true
      frequency := "weekly"
      occurrences := 1 }
    selectedJobType := "hedge"
    isEditMode := false
    editScope := "single"
    currentRecurringId := none
    currentEventId := ""
    nowMs := 3 }

/-- Environment for the C4 witness. -/
def c4Env : Env :=
  { apiAvailable := true, storageOk := true, remoteStore := [], localStore := [] }

/-- Witness for C4 at a concrete rejected submission. -/
theorem c4_witness :
    saveJobRun c4Input c4Env 0 = (.validationFailed (validationErrors c4Input), c4Env) ∧
    "Recurring jobs need at least 2 occurrences" ∈ validationErrors c4Input :=
  c4_recurring_validation c4Input c4Env 0 rfl (by decide)

/-- Number of job records a generation result carries: zero when the
submission was rejected by validation. -/
def producedCount : Except (List String) (List JobPayload) → Nat
  | .error _ => 0
  | .ok jobs => jobs.length

/-- Concrete input for the C7 counterexample: a fully filled submission
with recurrence requested and occurrence count 1. -/
def c7Input : SaveInput :=
  { form :=
    { client := "Cara"
      phone := "555"
      address := "3 Ash St"
      price := "30"
      date := some 60
      notes := ""
      isRecurring := true
      frequency := "monthly"
      occurrences := 1 }
    selectedJobType := "mowing"
    isEditMode := false
    editScope := "single"
    currentRecurringId := none
    currentEventId := ""
    nowMs := 11 }

/-- C7 counterexample: a submission with occurrence_count = 1 and
recurrence requested produces no job record at all — saveJob rejects it —
rather than exactly one record with null recurring_id as claimed. -/
theorem c7_counterexample :
    c7Input.form.isRecurring = true ∧
    c7Input.form.occurrences = 1 ∧
    saveJobGenerate c7Input = .error ["Recurring jobs need at least 2 occurrences"] ∧
    producedCount (saveJobGenerate c7Input) = 0 :=
  ⟨rfl, rfl, rfl, rfl⟩

/-- C7 (amended): a valid submission with recurrence not requested produces
exactly one record with recurring_id null; a submission with recurrence
requested and occurrence_count = 1 is rejected by validation and produces
no record. -/
theorem c7_single_expansion :
    (∀ input : SaveInput, input.form.isRecurring = false →
      validationErrors input = [] →
      saveJobGenerate input = .ok (expandedJobs input) ∧
      (expandedJobs input).length = 1 ∧
      (∀ (i : Nat) (j : JobPayload), (expandedJobs input)[i]? = some j →
        j.recurring_id = none)) ∧
    (∀ input : SaveInput, input.form.isRecurring = true →
      input.form.occurrences = 1 →
      saveJobGenerate input = .error (validationErrors input) ∧
      "Recurring jobs need at least 2 occurrences" ∈ validationErrors input) := by
  constructor
  · intro input hrec hnil
    refine ⟨by simp [saveJobGenerate, hnil], ?_, ?_⟩
    · rw [expandedJobs_length]
      simp [plannedJobCount, hrec]
    · intro i j hj
      obtain ⟨hi, rfl⟩ := expandedJobs_get hj
      simp [mkJobPayload, hrec]
  · intro input hrec hocc
    have hmem := recurring_error_mem hrec (by rw [hocc]; decide)
    have hne : validationErrors input ≠ [] := by
      intro h
      rw [h] at hmem
      exact absurd hmem (List.not_mem_nil _)
    exact ⟨by simp [saveJobGenerate, hne], hmem⟩

/-- Witness for C7 (amended), second part, at the counterexample input. -/
theorem c7_witness :
    saveJobGenerate c7Input = .error (validationErrors c7Input) ∧
    "Recurring jobs need at least 2 occurrences" ∈ validationErrors c7Input :=
  c7_single_expansion.2 c7Input rfl rfl

/-- Helper: a frequency outside the CONFIG.recurrence table falls back to
the 7-day default. -/
theorem intervalDaysFor_default {f : String} (hw : f ≠ "weekly")
    (hb : f ≠ "biweekly") (hm : f ≠ "monthly") : intervalDaysFor f = 7 := by
  have h1 : (f == "weekly") = false := by simp [hw]
  have h2 : (f == "biweekly") = false := by simp [hb]
  have h3 : (f == "monthly") = false := by simp [hm]
  unfold intervalDaysFor recurrenceConfig
  simp [List.lookup, h1, h2, h3]

/-- C10: a submitted frequency other than weekly, biweekly or monthly does
not make recurring creation fail: the expansion succeeds and the interval
silently defaults to 7 days for every occurrence of the series. -/
theorem c10_unknown_frequency (input : SaveInput) (N : Nat) (d : Nat)
    (hrec : input.form.isRecurring = true)
    (hocc : input.form.occurrences = (N : Int))
    (hN : 2 ≤ N)
    (hw : input.form.frequency ≠ "weekly")
    (hb : input.form.frequency ≠ "biweekly")
    (hm : input.form.frequency ≠ "monthly")
    (hclient : input.form.client ≠ "") (htype : input.selectedJobType ≠ "")
    (haddr : input.form.address ≠ "") (hprice : input.form.price ≠ "")
    (hdate : input.form.date = some d) :
    saveJobGenerate input = .ok (expandedJobs input) ∧
    (expandedJobs input).length = N ∧
    intervalDaysFor input.form.frequency = 7 ∧
    (∀ (i : Nat) (j : JobPayload), (expandedJobs input)[i]? = some j →
      j.start_time = d + i * 7) := by
  have hnil : validationErrors input = [] :=
    validationErrors_nil hclient htype haddr hprice
      (by rw [hdate]; simp)
      (fun _ => by rw [hocc]; exact_mod_cast hN)
  have hdef : intervalDaysFor input.form.frequency = 7 :=
    intervalDaysFor_default hw hb hm
  refine ⟨by simp [saveJobGenerate, hnil], ?_, hdef, ?_⟩
  · rw [expandedJobs_length]
    simp [plannedJobCount, hrec, hocc]
  · intro i j hj
    obtain ⟨hi, rfl⟩ := expandedJobs_get hj
    simp [mkJobPayload, hdate, hdef]

/-- Concrete input for the C10 witness: an unrecognized frequency. -/
def c10Input : SaveInput :=
  { form :=
    { client := "Dana"
      phone := ""
      address := "4 Fir St"
      price := "55"
      date := some 200
      notes := "side gate"
      isRecurring := true
      frequency := "daily"
      occurrences := 2 }
    selectedJobType := "mowing"
    isEditMode := false
    editScope := "single"
    currentRecurringId := none
    currentEventId := ""
    nowMs := 13 }

/-- Witness for C10 at the concrete unrecognized-frequency input. -/
theorem c10_witness :
    saveJobGenerate c10Input = .ok (expandedJobs c10Input) ∧
    (expandedJobs c10Input).length = 2 ∧
    intervalDaysFor "daily" = 7 := by
  have h := c10_unknown_frequency c10Input 2 200 rfl rfl (by decide)
    (by decide) (by decide) (by decide) (by decide) (by decide) (by decide)
    (by decide) rfl
  exact ⟨h.1, h.2.1, h.2.2.1⟩

/-- C2: the future-scope delete targets exactly the jobs of the series
whose start_time is at or after the selected occurrence's start (an
inclusive gte bound), in both the remote handler and the local-mirror
path; a series job strictly earlier than the selected date always
survives, as does every job outside the series. -/
theorem c2_future_delete_scope (store : List Job) (rid : String) (d : Nat)
    (hnodup : (store.map Job.id).Nodup) :
    (∀ j : Job, j ∈ (handleDeleteFuture store rid d).1 ↔
      j ∈ store ∧ ¬(j.recurring_id = some rid ∧ d ≤ j.start_time)) ∧
    ((handleDeleteFuture store rid d).2 = (store.filter (futureMatch rid d)).length) ∧
    (∀ (ls : List LocalJob) (lj : LocalJob),
      lj ∈ (deleteFutureJobsLocal ls rid d).1 ↔
      lj ∈ ls ∧ ¬(lj.recurring_id = some rid ∧ d ≤ lj.start)) := by
  refine ⟨?_, rfl, ?_⟩
  · intro j
    show j ∈ (store.filter (futureMatch rid d)).foldl
        (fun s t => supabaseDeleteById s t.id) store ↔ _
    rw [foldl_deleteById_eq_filter, List.mem_filter]
    constructor
    · rintro ⟨hjs, hb⟩
      refine ⟨hjs, ?_⟩
      rintro ⟨hmatch, hle⟩
      have hq : futureMatch rid d j = true := by
        simp [futureMatch, hmatch, hle]
      have hid : j.id ∈ (store.filter (futureMatch rid d)).map Job.id :=
        (mem_filter_ids_iff hnodup hjs).mpr hq
      simp [hid] at hb
    · rintro ⟨hjs, hnm⟩
      refine ⟨hjs, ?_⟩
      have hq : futureMatch rid d j = false := by
        rw [Bool.eq_false_iff]
        intro htrue
        apply hnm
        simpa [futureMatch] using htrue
      have hid : j.id ∉ (store.filter (futureMatch rid d)).map Job.id := by
        intro hmem
        have := (mem_filter_ids_iff hnodup hjs).mp hmem
        rw [hq] at this
        exact Bool.noConfusion this
      simp [hid]
  · intro ls lj
    show lj ∈ ls.filter
        (fun j => !(j.recurring_id == some rid && decide (d ≤ j.start))) ↔ _
    rw [List.mem_filter]
    constructor
    · rintro ⟨h1, h2⟩
      refine ⟨h1, ?_⟩
      rintro ⟨ha, hb⟩
      simp [ha, hb] at h2
    · rintro ⟨h1, h2⟩
      refine ⟨h1, ?_⟩
      simp only [Bool.not_eq_eq_eq_not, Bool.not_true, Bool.and_eq_false_imp]
      intro ha
      simp only [beq_iff_eq] at ha
      simp [ha] at h2 ⊢
      omega

/-- A three-occurrence series used by the C2 witness, with one extra
earlier occurrence surviving a future-scope delete from day 20. -/
def c2JobA : Job :=
  { id := "a", title := "Alice - Mowing", start_time := 10, job_type := "mowing",
    notes := "", price := some "40", address := "1 Elm St", client_phone := "555",
    status := .pending, recurring_id := some "r", is_recurring := true,
    recurrence_pattern := some { frequency := "weekly", interval := 7 },
    occurrence_number := 1, google_event_id := none, updated_at := 0 }

def c2JobB : Job :=
  { c2JobA with id := "b", start_time := 20, occurrence_number := 2 }

def c2JobC : Job :=
  { c2JobA with id := "c", start_time := 30, occurrence_number := 3 }

def c2Store : List Job := [c2JobA, c2JobB, c2JobC]

/-- Witness for C2: selecting the day-20 occurrence keeps the day-10 one
and reports 2 deletions. -/
theorem c2_witness :
    c2JobA ∈ (handleDeleteFuture c2Store "r" 20).1 ∧
    (handleDeleteFuture c2Store "r" 20).2 = 2 := by
  have h := c2_future_delete_scope c2Store "r" 20 (by decide)
  refine ⟨(h.1 c2JobA).mpr (by decide), h.2.1.trans (by decide)⟩

/-- C3 counterexample: deleting an id that matches nothing succeeds but the
single-delete handler reports deleted = 1 — a literal in its response —
not the 0 affected rows the claim states. -/
theorem c3_counterexample :
    (handleDeleteSingle [] "42").1 = [] ∧ (handleDeleteSingle [] "42").2 ≠ 0 := by
  decide

/-- C3 (amended): a delete whose target set is empty never errors and
leaves the table unchanged; the series and future scopes report 0 affected
rows, while the single-id delete reports the hardcoded count 1 even though
nothing was deleted. -/
theorem c3_empty_target_deletes
    (store : List Job) (rid : String) (jobId : String) (d : Nat)
    (hser : store.filter (seriesMatch rid) = [])
    (hfut : store.filter (futureMatch rid d) = [])
    (hid : store.filter (fun j => j.id == jobId) = []) :
    handleDeleteSeries store rid = (store, 0) ∧
    handleDeleteFuture store rid d = (store, 0) ∧
    handleDeleteSingle store jobId = (store, 1) := by
  refine ⟨?_, ?_, ?_⟩
  · simp [handleDeleteSeries, hser]
  · simp [handleDeleteFuture, hfut]
  · have hall : ∀ j ∈ store, (j.id == jobId) = false := by
      intro j hj
      by_contra hne
      have : (j.id == jobId) = true := by
        cases hcase : (j.id == jobId) with
        | true => rfl
        | false => exact absurd hcase hne
      have : j ∈ store.filter (fun j => j.id == jobId) :=
        List.mem_filter.mpr ⟨hj, this⟩
      rw [hid] at this
      exact absurd this (List.not_mem_nil _)
    unfold handleDeleteSingle supabaseDeleteById
    rw [List.filter_eq_self.mpr]
    intro j hj
    simp [bne, hall j hj]

/-- A one-job store whose only job belongs to series s, used by the C3
witness. -/
def c3Job : Job :=
  { id := "a", title := "Eve - Mowing", start_time := 5, job_type := "mowing",
    notes := "", price := none, address := "9 Oak St", client_phone := "",
    status := .done, recurring_id := some "s", is_recurring := true,
    recurrence_pattern := none, occurrence_number := 1,
    google_event_id := none, updated_at := 0 }

def c3Store : List Job := [c3Job]

/-- Witness for C3 (amended) at a store containing no member of series zz
and no job with id 42. -/
theorem c3_witness :
    handleDeleteSeries c3Store "zz" = (c3Store, 0) ∧
    handleDeleteFuture c3Store "zz" 0 = (c3Store, 0) ∧
    handleDeleteSingle c3Store "42" = (c3Store, 1) :=
  c3_empty_target_deletes c3Store "zz" "42" 0 (by decide) (by decide) (by decide)

/-- The store for the C6 counterexample: one series job whose shared-field
values already equal the incoming edit, so the six claimed fields are
written with identical values. -/
def c6Job : Job :=
  { id := "a", title := "Finn - Mowing", start_time := 12, job_type := "mowing",
    notes := "gate", price := some "45", address := "5 Pine St",
    client_phone := "777", status := .pending, recurring_id := some "r",
    is_recurring := true, recurrence_pattern := none, occurrence_number := 1,
    google_event_id := none, updated_at := 0 }

def c6Shared : SharedData :=
  { title := "Finn - Mowing", job_type := "mowing", notes := "gate",
    price := some "45", address := "5 Pine St", client_phone := "777" }

/-- C6 counterexample: a series edit also writes updated_at — here the six
named shared fields keep their old values, yet the stored row changes —
so it is not true that only title, job_type, notes, price, address and
client_phone are written. -/
theorem c6_counterexample :
    ((handleUpdateSeries [c6Job] "r" c6Shared 5).1.map Job.updated_at
      ≠ [c6Job].map Job.updated_at) ∧
    ((handleUpdateSeries [c6Job] "r" c6Shared 5).1.map Job.title
      = [c6Job].map Job.title) ∧
    ((handleUpdateSeries [c6Job] "r" c6Shared 5).1.map Job.start_time
      = [c6Job].map Job.start_time) := by
  decide

/-- C6 (amended): a bulk series edit writes only the shared fields title,
job_type, notes, price, address and client_phone plus the server-set
updated_at timestamp (remote handler), or only the six shared fields
(local mirror); the per-occurrence fields start_time, status and
occurrence_number of every job in the series are left unchanged, and jobs
outside the series are untouched. -/
theorem c6_series_edit_frame (store : List Job) (rid : String)
    (sd : SharedData) (now : Nat)
    (hnodup : (store.map Job.id).Nodup) :
    ((handleUpdateSeries store rid sd now).1 =
      store.map (fun j => if seriesMatch rid j then applySharedPatch sd now j else j)) ∧
    (∀ j : Job,
      (applySharedPatch sd now j).start_time = j.start_time ∧
      (applySharedPatch sd now j).status = j.status ∧
      (applySharedPatch sd now j).occurrence_number = j.occurrence_number ∧
      (applySharedPatch sd now j).id = j.id ∧
      (applySharedPatch sd now j).recurring_id = j.recurring_id ∧
      (applySharedPatch sd now j).is_recurring = j.is_recurring ∧
      (applySharedPatch sd now j).recurrence_pattern = j.recurrence_pattern ∧
      (applySharedPatch sd now j).google_event_id = j.google_event_id ∧
      (applySharedPatch sd now j).title = sd.title ∧
      (applySharedPatch sd now j).job_type = sd.job_type ∧
      (applySharedPatch sd now j).notes = sd.notes ∧
      (applySharedPatch sd now j).price = sd.price ∧
      (applySharedPatch sd now j).address = sd.address ∧
      (applySharedPatch sd now j).client_phone = sd.client_phone ∧
      (applySharedPatch sd now j).updated_at = now) ∧
    ((handleUpdateSeries store rid sd now).2 = (store.filter (seriesMatch rid)).length) ∧
    (∀ ls : List LocalJob,
      (updateAllInSeriesLocal ls rid sd).1 =
        ls.map (fun j => if j.recurring_id == some rid then localSharedPatch sd j else j)) ∧
    (∀ lj : LocalJob,
      (localSharedPatch sd lj).start = lj.start ∧
      (localSharedPatch sd lj).status = lj.status ∧
      (localSharedPatch sd lj).id = lj.id ∧
      (localSharedPatch sd lj).is_recurring = lj.is_recurring ∧
      (localSharedPatch sd lj).recurring_id = lj.recurring_id ∧
      (localSharedPatch sd lj).classNames = lj.classNames) := by
  refine ⟨?_, ?_, rfl, fun ls => rfl, ?_⟩
  · show (store.filter (seriesMatch rid)).foldl
        (fun s j => supabasePatchById s j.id (applySharedPatch sd now)) store = _
    rw [foldl_patchById_eq_map (applySharedPatch sd now) (fun j => rfl) (fun j => rfl)]
    apply List.map_congr_left
    intro j hj
    by_cases hq : seriesMatch rid j = true
    · rw [if_pos (decide_eq_true ((mem_filter_ids_iff hnodup hj).mpr hq)), if_pos hq]
    · rw [if_neg ?_, if_neg hq]
      intro hmem
      exact hq ((mem_filter_ids_iff hnodup hj).mp (of_decide_eq_true hmem))
  · intro j
    exact ⟨rfl, rfl, rfl, rfl, rfl, rfl, rfl, rfl, rfl, rfl, rfl, rfl, rfl, rfl, rfl⟩
  · intro lj
    exact ⟨rfl, rfl, rfl, rfl, rfl, rfl⟩

/-- Store for the C6 witness: one series member and one unrelated job. -/
def c6wJob1 : Job :=
  { c6Job with id := "a" }

def c6wJob2 : Job :=
  { c6Job with
    id := "b"
    recurring_id := none
    is_recurring := false
    start_time := 50 }

def c6wStore : List Job := [c6wJob1, c6wJob2]

def c6wShared : SharedData :=
  { title := "Finn - Hedge Trimming", job_type := "hedge", notes := "",
    price := some "60", address := "5 Pine St", client_phone := "777" }

/-- Witness for C6 (amended): the series member is patched, the unrelated
job is untouched, and the count is 1. -/
theorem c6_witness :
    (handleUpdateSeries c6wStore "r" c6wShared 9).1 =
      [applySharedPatch c6wShared 9 c6wJob1, c6wJob2] ∧
    (handleUpdateSeries c6wStore "r" c6wShared 9).2 = 1 := by
  have h := c6_series_edit_frame c6wStore "r" c6wShared 9 (by decide)
  exact ⟨h.1.trans (by decide), h.2.2.1.trans (by decide)⟩

/-- Helper: the local updateJob field copy never touches any stored
status. -/
theorem updateJobLocal_map_status (ls : List LocalJob) (jobId : String)
    (p : JobPayload) :
    (updateJobLocal ls jobId p).map LocalJob.status = ls.map LocalJob.status := by
  induction ls with
  | nil => rfl
  | cons j rest ih =>
    unfold updateJobLocal
    by_cases h : (j.id == jobId) = true
    · simp [h, localEditPatch]
    · simp only [h]
      simp [List.map_cons, ih]

/-- C8: editing an existing single job never changes its status: the
edit-mode payload omits the status key (it is set to undefined and deleted
for i = 0), so the remote PUT — a PATCH of the present keys — preserves
every stored status, and the local-mirror updateJob copies only title,
start, type, notes, phone, address and price, also preserving status. -/
theorem c8_edit_preserves_status (input : SaveInput) (jobs : List JobPayload)
    (p : JobPayload)
    (hedit : input.isEditMode = true)
    (hok : saveJobGenerate input = .ok jobs)
    (hhead : jobs[0]? = some p) :
    p.status = none ∧
    (∀ (store : List Job) (jobId : String) (now : Nat),
      (handlePutSingle store jobId p now).map Job.status = store.map Job.status) ∧
    (∀ (ls : List LocalJob) (jobId : String),
      (updateJobLocal ls jobId p).map LocalJob.status = ls.map LocalJob.status) := by
  have hjobs : jobs = expandedJobs input := by
    by_cases hne : validationErrors input ≠ []
    · simp [saveJobGenerate, hne] at hok
    · simp [saveJobGenerate, hne] at hok
      exact hok.symm
  subst hjobs
  have hstat : p.status = none := by
    obtain ⟨-, rfl⟩ := expandedJobs_get hhead
    simp [mkJobPayload, hedit]
  refine ⟨hstat, ?_, fun ls jobId => updateJobLocal_map_status ls jobId p⟩
  intro store jobId now
  unfold handlePutSingle supabasePatchById
  rw [List.map_map]
  apply List.map_congr_left
  intro j hj
  by_cases h : (j.id == jobId) = true
  · simp [Function.comp, h, applyPayloadPatch, hstat]
  · simp [Function.comp, h]

/-- Concrete edit-mode input for the C8 witness. -/
def c8Input : SaveInput :=
  { form :=
    { client := "Gil"
      phone := "888"
      address := "7 Elm St"
      price := "35"
      date := some 90
      notes := ""
      isRecurring := false
      frequency := "weekly"
      occurrences := 1 }
    selectedJobType := "mowing"
    isEditMode := true
    editScope := "single"
    currentRecurringId := none
    currentEventId := "a"
    nowMs := 21 }

/-- The first (and only) payload of the C8 edit submission. -/
def c8Payload : JobPayload := (expandedJobs c8Input).headD default

/-- A store holding a done job, used to witness that editing does not
reset its status. -/
def c8Job : Job :=
  { id := "a", title := "Gil - Mowing", start_time := 80, job_type := "mowing",
    notes := "", price := some "35", address := "7 Elm St", client_phone := "888",
    status := .done, recurring_id := none, is_recurring := false,
    recurrence_pattern := none, occurrence_number := 1,
    google_event_id := none, updated_at := 0 }

def c8Store : List Job := [c8Job]

/-- Witness for C8: the edit payload has no status and patching a done job
with it leaves the status done. -/
theorem c8_witness :
    c8Payload.status = none ∧
    (handlePutSingle c8Store "a" c8Payload 3).map Job.status
      = c8Store.map Job.status := by
  have h := c8_edit_preserves_status c8Input (expandedJobs c8Input) c8Payload
    rfl rfl rfl
  exact ⟨h.1, h.2.1 c8Store "a" 3⟩

/-- confirmCancelScope with scope single in local mode (src/script.js
lines 994-996 and 1027-1031): the filtered collection is handed to
Storage.set, whose return value is not checked, and the Job deleted!
modal is shown regardless. -/
def deleteSingleJobLocalRun (store : List LocalJob) (jobId : String)
    (storageOk : Bool) : SaveOutcome × List LocalJob :=
  (.success "Job deleted!",
   (storageSet storageOk store (deleteSingleJobLocal store jobId)).1)

/-- confirmCancelScope with scope future in local mode (src/script.js
lines 997-999 and 1049-1057): the count is computed before the write and
returned whether or not Storage.set succeeds. -/
def deleteFutureJobsLocalRun (store : List LocalJob) (recurringId : String)
    (fromDate : Nat) (storageOk : Bool) : SaveOutcome × List LocalJob :=
  (.success ("Deleted " ++
      toString (deleteFutureJobsLocal store recurringId fromDate).2 ++ " job(s)!"),
   (storageSet storageOk store (deleteFutureJobsLocal store recurringId fromDate).1).1)

/-- confirmCancelScope with scope all in local mode (src/script.js
lines 1000-1002 and 1072-1078): the count is computed before the write
and returned whether or not Storage.set succeeds. -/
def deleteEntireSeriesLocalRun (store : List LocalJob) (recurringId : String)
    (storageOk : Bool) : SaveOutcome × List LocalJob :=
  (.success ("Deleted all " ++
      toString (deleteEntireSeriesLocal store recurringId).2 ++ " job(s) in series!"),
   (storageSet storageOk store (deleteEntireSeriesLocal store recurringId).1).1)

/-- C9: in local mode, when the localStorage write fails (Storage.set
catches the exception and returns false), the enclosing operation still
completes without throwing and reports success while the mirror keeps its
old contents: a valid create shows the Scheduled message, a single edit
shows Job Updated, a series edit shows the Updated count, and the three
delete scopes show their deleted modals with counts computed before the
failed write — the reported outcome never reflects the failed local
write. -/
theorem c9_local_write_failure (input : SaveInput) (env : Env) (now : Nat)
    (hapi : env.apiAvailable = false)
    (hstore : env.storageOk = false)
    (hnil : validationErrors input = []) :
    (input.isEditMode = false →
      saveJobRun input env now =
        (.success (scheduledMessage (plannedJobCount input)), env)) ∧
    (input.isEditMode = true →
      input.currentRecurringId = none ∨ input.editScope ≠ "all" →
      saveJobRun input env now = (.success "Job Updated!", env)) ∧
    (∀ rid : String, input.isEditMode = true →
      input.currentRecurringId = some rid → input.editScope = "all" →
      saveJobRun input env now =
        (.success ("Updated " ++
            toString (env.localStore.filter
              (fun j => j.recurring_id == some rid)).length ++
            " job(s) in the series!"), env)) ∧
    (∀ jobId : String,
      deleteSingleJobLocalRun env.localStore jobId env.storageOk =
        (.success "Job deleted!", env.localStore)) ∧
    (∀ (rid : String) (d : Nat),
      deleteFutureJobsLocalRun env.localStore rid d env.storageOk =
        (.success ("Deleted " ++
            toString (deleteFutureJobsLocal env.localStore rid d).2 ++
            " job(s)!"), env.localStore)) ∧
    (∀ rid : String,
      deleteEntireSeriesLocalRun env.localStore rid env.storageOk =
        (.success ("Deleted all " ++
            toString (deleteEntireSeriesLocal env.localStore rid).2 ++
            " job(s) in series!"), env.localStore)) := by
  obtain ⟨a, s, r, l⟩ := env
  simp only [Env.mk.injEq] at hapi hstore
  subst hapi
  subst hstore
  refine ⟨?_, ?_, ?_, ?_, ?_, ?_⟩
  · intro hedit
    simp [saveJobRun, saveJobGenerate, hnil, hedit, storageSet,
      expandedJobs_length]
  · intro hedit hcond
    rcases hcond with hc | hc
    · cases hb : (input.editScope == "all") <;>
        simp [saveJobRun, saveJobGenerate, hnil, hedit, hc, hb, storageSet]
    · have hb : (input.editScope == "all") = false := by simp [hc]
      cases hcr : input.currentRecurringId with
      | none => simp [saveJobRun, saveJobGenerate, hnil, hedit, hb, hcr, storageSet]
      | some rid =>
        simp [saveJobRun, saveJobGenerate, hnil, hedit, hb, hcr, storageSet]
  · intro rid hedit hrid hscope
    have hb : (input.editScope == "all") = true := by simp [hscope]
    simp [saveJobRun, saveJobGenerate, hnil, hedit, hrid, hb, storageSet,
      updateAllInSeriesLocal]
  · intro jobId
    simp [deleteSingleJobLocalRun, storageSet]
  · intro rid d
    simp [deleteFutureJobsLocalRun, storageSet]
  · intro rid
    simp [deleteEntireSeriesLocalRun, storageSet]

/-- Concrete input for the C9 witness: a valid one-off job submission. -/
def c9Input : SaveInput :=
  { form :=
    { client := "Hana"
      phone := ""
      address := "8 Oak St"
      price := "20"
      date := some 70
      notes := ""
      isRecurring := false
      frequency := "weekly"
      occurrences := 1 }
    selectedJobType := "hedge"
    isEditMode := false
    editScope := "single"
    currentRecurringId := none
    currentEventId := ""
    nowMs := 17 }

/-- Local-mode environment with failing storage and a pre-existing local
record, for the C9 witness. -/
def c9Local : LocalJob :=
  { id := "old", title := "Old - Mowing", start := 1, type := "mowing",
    notes := "", phone := "", status := some .pending, price := none,
    address := "", recurring_id := none, is_recurring := false,
    classNames := ["job-mowing"] }

def c9Env : Env :=
  { apiAvailable := false, storageOk := false, remoteStore := [],
    localStore := [c9Local] }

/-- Concrete edit-mode input for the update path of the C9 witness. -/
def c9EditInput : SaveInput :=
  { form :=
    { client := "Hana"
      phone := ""
      address := "8 Oak St"
      price := "20"
      date := some 70
      notes := ""
      isRecurring := false
      frequency := "weekly"
      occurrences := 1 }
    selectedJobType := "mowing"
    isEditMode := true
    editScope := "single"
    currentRecurringId := none
    currentEventId := "old"
    nowMs := 19 }

/-- Witness for C9: with failing storage, a create shows Scheduled, a
single edit shows Job Updated, and single and future deletes show their
modals, while the mirror keeps its old contents every time. -/
theorem c9_witness :
    saveJobRun c9Input c9Env 4 = (.success "1 Job Scheduled!", c9Env) ∧
    saveJobRun c9EditInput c9Env 4 = (.success "Job Updated!", c9Env) ∧
    deleteSingleJobLocalRun c9Env.localStore "old" c9Env.storageOk =
      (.success "Job deleted!", c9Env.localStore) ∧
    deleteFutureJobsLocalRun c9Env.localStore "r" 0 c9Env.storageOk =
      (.success ("Deleted " ++
          toString (deleteFutureJobsLocal c9Env.localStore "r" 0).2 ++
          " job(s)!"), c9Env.localStore) := by
  have h1 := c9_local_write_failure c9Input c9Env 4 rfl rfl (by decide)
  have h2 := c9_local_write_failure c9EditInput c9Env 4 rfl rfl (by decide)
  exact ⟨(h1.1 rfl).trans (by decide), h2.2.1 rfl (Or.inl rfl),
    h1.2.2.2.1 "old", h1.2.2.2.2.1 "r" 0⟩

/-- C5: under the operations the application offers against an occurrence,
its status only moves forward — from pending to done or pending to
cancelled, never backward — and once done or cancelled the status never
changes again: any later offered sequence either leaves the status as is
or hard-deletes the occurrence. -/
theorem c5_status_transitions :
    (∀ (s t : Status) (a : UserAction), applyAction (some s) a = some t →
      t = s ∨ (s = .pending ∧ (t = .done ∨ t = .cancelled))) ∧
    (∀ (s : Status) (acts : List UserAction),
      s = .done ∨ s = .cancelled →
      runActions (some s) acts = some s ∨ runActions (some s) acts = none) := by
  have hnone : ∀ l : List UserAction, runActions none l = none := by
    intro l
    induction l with
    | nil => rfl
    | cons a l ih =>
      show runActions (applyAction none a) l = none
      exact ih
  constructor
  · decide
  · intro s acts hterm
    induction acts with
    | nil => exact Or.inl rfl
    | cons a acts ih =>
      have hstep : applyAction (some s) a = some s ∨ applyAction (some s) a = none := by
        rcases hterm with h | h <;> subst h <;> revert a <;> decide
      show runActions (applyAction (some s) a) acts = some s ∨
        runActions (applyAction (some s) a) acts = none
      rcases hstep with h | h
      · rw [h]
        exact ih
      · rw [h]
        exact Or.inr (hnone acts)

/-- Witness for C5: marking a pending occurrence done is a forward step,
and a done occurrence survives a later markDone and editSelf with its
status intact. -/
theorem c5_witness :
    (Status.done = Status.pending ∨
      (Status.pending = Status.pending ∧
        (Status.done = Status.done ∨ Status.done = Status.cancelled))) ∧
    (runActions (some Status.done) [UserAction.markDone, UserAction.editSelf]
        = some Status.done ∨
     runActions (some Status.done) [UserAction.markDone, UserAction.editSelf]
        = none) :=
  ⟨c5_status_transitions.1 .pending .done .markDone rfl,
   c5_status_transitions.2 .done [.markDone, .editSelf] (Or.inl rfl)⟩
